import Mathlib

/-!
Verification of the asyncqlio ORM core (session lifecycle, row queries,
index DDL, dialect reflection) against a shallow Lean embedding of the
Python sources.

Conventions of the embedding:
* Python exceptions become `Except String` (or a dedicated error type when
  the kind of runtime error matters).
* Calls made against the backend transaction/connection are recorded in an
  explicit trace (a `List` of call descriptions), so "issues a backend
  call" / "issues no backend call" are provable statements.
* Python dictionaries holding row values become association lists from
  column name to value; absence of a key plays the role of the NO_VALUE
  sentinel, and `Option` plays the role of the NO_DEFAULT sentinel.
-/

/-! ## Session state machine (asyncqlio/orm/session.py) -/

/-- States of a Session, from `class SessionState(enum.Enum)`. -/
inductive SessionState
  | NOT_READY
  | READY
  | CLOSED
deriving DecidableEq

/-- Python str.startswith, evaluated on the character lists (so concrete
instances reduce inside the kernel). -/
def pyStartsWith (s pre : String) : Bool :=
  pre.toList.isPrefixOf s.toList

/-- A Session reduced to the parts the lifecycle claims need: its state and
the trace of calls it has made against its transaction. -/
structure SessionM where
  state : SessionState
  trace : List String
deriving DecidableEq

/-- The `enforce_open` decorator: raise RuntimeError unless the state is
READY, otherwise run the wrapped method. -/
def enforce_open (f : SessionM → Except String SessionM) (s : SessionM) :
    Except String SessionM :=
  if s.state ≠ SessionState.READY then Except.error "Session is not ready or closed"
  else f s

/-- `Session.start`: raise unless NOT_READY; otherwise acquire a
transaction, begin it, and become READY. -/
def session_start (s : SessionM) : Except String SessionM :=
  if s.state ≠ SessionState.NOT_READY then
    Except.error "Session must not be ready or closed"
  else
    Except.ok { s with state := SessionState.READY,
                       trace := s.trace ++ ["transaction.begin"] }

/-- `Session.commit` (guarded by `enforce_open`): delegate to the
transaction commit; the session stays READY. -/
def session_commit : SessionM → Except String SessionM :=
  enforce_open fun s => Except.ok { s with trace := s.trace ++ ["transaction.commit"] }

/-- `Session.rollback` (guarded by `enforce_open`): delegate to the
transaction rollback, forwarding the checkpoint argument. -/
def session_rollback (checkpoint : Option String) : SessionM → Except String SessionM :=
  enforce_open fun s =>
    Except.ok { s with trace := s.trace ++
      (match checkpoint with
       | none => ["transaction.rollback"]
       | some cp => ["transaction.rollback " ++ cp]) }

/-- `Session.close` (guarded by `enforce_open`): close the transaction and
become CLOSED. -/
def session_close : SessionM → Except String SessionM :=
  enforce_open fun s =>
    Except.ok { s with state := SessionState.CLOSED,
                       trace := s.trace ++ ["transaction.close"] }

/-- `Session.fetch` (guarded by `enforce_open`): open a cursor, fetch one
row, close the cursor. -/
def session_fetch (sql : String) : SessionM → Except String SessionM :=
  enforce_open fun s =>
    Except.ok { s with trace := s.trace ++
      ["transaction.cursor " ++ sql, "cur.fetch_row", "cur.close"] }

/-- `Session.execute` (guarded by `enforce_open`): delegate to the
transaction execute. -/
def session_execute (sql : String) : SessionM → Except String SessionM :=
  enforce_open fun s =>
    Except.ok { s with trace := s.trace ++ ["transaction.execute " ++ sql] }

/-- `Session.cursor` (guarded by `enforce_open`): delegate to the
transaction cursor. -/
def session_cursor (sql : String) : SessionM → Except String SessionM :=
  enforce_open fun s =>
    Except.ok { s with trace := s.trace ++ ["transaction.cursor " ++ sql] }

/-- `Session.insert_now` (guarded by `enforce_open`): build a one-row
insert query and run it; here reduced to its guard plus a trace entry, the
body is verified separately as `run_insert_row_noret`. -/
def session_insert_now : SessionM → Except String SessionM :=
  enforce_open fun s => Except.ok { s with trace := s.trace ++ ["run_insert_query"] }

/-- `Session.update_now` (guarded by `enforce_open`): build a one-row
update query and run it; here reduced to its guard plus a trace entry, the
body is verified separately as `run_update_rows`. -/
def session_update_now : SessionM → Except String SessionM :=
  enforce_open fun s => Except.ok { s with trace := s.trace ++ ["run_update_query"] }

/-! ## Scoped session exit (Session.aexit in session.py) -/

/-- The three transaction calls the scoped-exit path can make. -/
inductive SessAct
  | commitA
  | rollbackA
  | closeA
deriving DecidableEq

/-- Outcomes of the three transaction calls for one scoped exit: `none`
means the call returns normally, `some e` means it raises `e`. -/
structure TxOutcomes where
  commitErr : Option String
  rollbackErr : Option String
  closeErr : Option String
deriving DecidableEq

/-- The scoped-exit method of Session, transliterating its
try/except/finally control flow.  `excType` is the exception propagating
out of the body (`none` on normal exit).  Returns the trace of transaction
calls made and the exception that reaches the caller (the method returns
False, so a pending body exception is never suppressed). -/
def session_aexit (o : TxOutcomes) (excType : Option String) :
    List SessAct × Option String :=
  let tryTrace : List SessAct :=
    if excType.isNone then [SessAct.commitA] else [SessAct.rollbackA]
  let tryErr : Option String :=
    if excType.isNone then o.commitErr else o.rollbackErr
  let handled : List SessAct × Option String :=
    match tryErr with
    | none => (tryTrace, none)
    | some e =>
      match o.rollbackErr with
      | none => (tryTrace ++ [SessAct.rollbackA], some e)
      | some r => (tryTrace ++ [SessAct.rollbackA], some r)
  let finTrace := handled.1 ++ [SessAct.closeA]
  let pending : Option String :=
    match o.closeErr with
    | some c => some c
    | none => handled.2
  match pending with
  | some e => (finTrace, some e)
  | none => (finTrace, excType)

/-! ## Schema model and table rows (used by run_insert/update/delete) -/

/-- A schema column as the Session code consumes it: a name, the
auto_increment flag, and the schema default (`none` plays NO_DEFAULT).
Modelled from the spec: the column class itself (asyncqlio/orm/schema/
column.py) is absent from the sources; the spec describes a Column as
carrying a name, an auto-increment flag and a default value or a
distinguished no-default marker. -/
structure SColumn where
  name : String
  auto_increment : Bool
  default : Option Int
deriving DecidableEq

/-- A table as the Session code consumes it: its columns in declaration
order (`iter_columns`). -/
structure STable where
  columns : List SColumn
deriving DecidableEq

/-- Looks a column name up in a row value store; the first binding wins,
matching dictionary lookup after `store_column_value` updates. -/
def lookupValue (vs : List (String × Int)) (n : String) : Option Int :=
  match vs with
  | [] => none
  | (k, v) :: rest => if k = n then some v else lookupValue rest n

/-- A table row as the Session code consumes it.
Modelled from the spec: the row class (asyncqlio/orm/schema/row.py) is
absent from the sources; the spec describes a TableRow as a mapping from
column to current and previous value plus the lifecycle flags existed and
deleted.  Absence of a binding plays the NO_VALUE sentinel. -/
structure SRow where
  table : STable
  values : List (String × Int)
  previous_values : List (String × Int)
  existed : Bool
  deleted : Bool
deriving DecidableEq

/-- `row.store_column_value(column, value)`: bind the column name to the
value in the current-value store (newest binding shadows older ones).
Modelled from the spec (row class absent from the sources). -/
def store_column_value (r : SRow) (c : SColumn) (v : Int) : SRow :=
  { r with values := (c.name, v) :: r.values }

/-- `row.get_column_value(column, return_default=False)`: the stored
current value, `none` playing NO_VALUE.  Modelled from the spec (row class
absent from the sources). -/
def get_column_value_no_default (r : SRow) (c : SColumn) : Option Int :=
  lookupValue r.values c.name

/-- One iteration of the client-side defaulting loop of
`run_insert_query`: if the column default is defined and the current value
is still unset, store the schema default locally. -/
def defaults_step (row : SRow) (c : SColumn) : SRow :=
  match c.default with
  | some d =>
    if (get_column_value_no_default row c).isNone then store_column_value row c d
    else row
  | none => row

/-- The client-side defaulting loop of `run_insert_query`, iterating
`defaults_step` over the table columns in declaration order. -/
def apply_defaults (r : SRow) : SRow :=
  r.table.columns.foldl defaults_step r

/-- `MysqlDialect.lastval_method` (backends/mysql). -/
def mysql_lastval_method : String := "LAST_INSERT_ID()"

/-- `MysqlDialect.has_returns` (backends/mysql). -/
def mysql_has_returns : Bool := false

/-- One row of `Session.run_insert_query` on a dialect with
`has_returns = False`: raise if the row is marked deleted; execute the
insert; if the table has exactly one auto-increment column, issue the
dedicated last-value query (`SELECT <lastval_method>;`) and store its
result (`lastval`) into that column; apply schema defaults to columns
still unset; finally clear `deleted` and set `existed`.  Returns the
reconciled row and the trace of SQL statements issued. -/
def run_insert_row_noret (sql : String) (lastval : Int) (r : SRow) :
    Except String (SRow × List String) :=
  if r.deleted then Except.error "Row is marked as deleted"
  else
    let tr0 : List String := [sql]
    let step :=
      if (r.table.columns.countP (fun c => c.auto_increment)) = 1 then
        let lquery := "SELECT " ++ mysql_lastval_method ++ ";"
        let r1 :=
          match r.table.columns.find? (fun c => c.auto_increment) with
          | some c => store_column_value r c lastval
          | none => r
        (r1, tr0 ++ [lquery])
      else (r, tr0)
    let r2 := apply_defaults step.1
    Except.ok ({ r2 with deleted := false, existed := true }, step.2)

/-- One generated statement for a row: the `(sql, params)` pair produced
by a query generator; `(none, none)` is the no-op sentinel. -/
abbrev RowStmt := Option String × Option (List Int)

/-- `Session.run_update_query` over the zipped (row, statement) pairs:
raise if a row is marked deleted; skip the no-op sentinel `(None, None)`
without touching the row; otherwise execute the statement and replace the
previous-values snapshot with the current values.  Returns the processed
rows and the trace of executed statements. -/
def run_update_rows :
    List (SRow × RowStmt) → Except String (List SRow × List RowStmt)
  | [] => Except.ok ([], [])
  | (r, sql, params) :: rest =>
    if r.deleted then Except.error "Row is marked as deleted"
    else if sql.isNone && params.isNone then
      match run_update_rows rest with
      | Except.error e => Except.error e
      | Except.ok (rs, tr) => Except.ok (r :: rs, tr)
    else
      match run_update_rows rest with
      | Except.error e => Except.error e
      | Except.ok (rs, tr) =>
        Except.ok ({ r with previous_values := r.values } :: rs, (sql, params) :: tr)

/-- `Session.run_delete_query` over the zipped (row, statement) pairs:
raise if a row is already marked deleted; skip the no-op sentinel
`(None, None)` without touching the row (the same skip as in
`run_update_rows`); otherwise execute the statement and mark the row
deleted.  Returns the processed rows and the trace of executed
statements. -/
def run_delete_rows :
    List (SRow × RowStmt) → Except String (List SRow × List RowStmt)
  | [] => Except.ok ([], [])
  | (r, sql, params) :: rest =>
    if r.deleted then Except.error "Row is already marked as deleted"
    else if sql.isNone && params.isNone then
      match run_delete_rows rest with
      | Except.error e => Except.error e
      | Except.ok (rs, tr) => Except.ok (r :: rs, tr)
    else
      match run_delete_rows rest with
      | Except.error e => Except.error e
      | Except.ok (rs, tr) =>
        Except.ok ({ r with deleted := true } :: rs, (sql, params) :: tr)

/-- Per-row result of `run_update_rows` on the no-error path: sentinel
rows are untouched, executed rows get their previous-values snapshot
replaced by the current values. -/
def updateRowResult (p : SRow × RowStmt) : SRow :=
  if p.2.1.isNone && p.2.2.isNone then p.1
  else { p.1 with previous_values := p.1.values }

/-- Per-row trace contribution of `run_update_rows`: nothing for the
sentinel, the statement itself otherwise. -/
def updateRowTrace (p : SRow × RowStmt) : Option RowStmt :=
  if p.2.1.isNone && p.2.2.isNone then none else some p.2

/-- Per-row result of `run_delete_rows` on the no-error path: sentinel
rows are untouched, executed rows are marked deleted. -/
def deleteRowResult (p : SRow × RowStmt) : SRow :=
  if p.2.1.isNone && p.2.2.isNone then p.1
  else { p.1 with deleted := true }

/-- Per-row trace contribution of `run_delete_rows`: nothing for the
sentinel, the statement itself otherwise. -/
def deleteRowTrace (p : SRow × RowStmt) : Option RowStmt :=
  if p.2.1.isNone && p.2.2.isNone then none else some p.2

/-! ## Checkpoint handling (backends/mysql) -/

/-- `MysqlDialect.has_checkpoints` (backends/mysql/init). -/
def mysql_has_checkpoints : Bool := true

/-- `AiomysqlTransaction.rollback` (backends/mysql/aiomysql.py): performs
a plain connection rollback; the checkpoint argument appears nowhere in
the body.  Returns the connection calls made. -/
def aiomysql_rollback (checkpoint : Option String) : List String :=
  ["connection.rollback()"]

/-- `Session.rollback` wired to the aiomysql transaction: the
`enforce_open` guard, then `transaction.rollback(checkpoint=checkpoint)`
which is `aiomysql_rollback`. -/
def session_rollback_aiomysql (s : SessionM) (checkpoint : Option String) :
    Except String SessionM :=
  if s.state ≠ SessionState.READY then Except.error "Session is not ready or closed"
  else Except.ok { s with trace := s.trace ++ aiomysql_rollback checkpoint }

/-! ## Index (asyncqlio/orm/schema/index.py) -/

/-- A column reference held by an Index: either a bare string or a Column
entity (`isinstance(column, str)` branches in the source). -/
inductive IndexColumnRef
  | byStr (s : String)
  | byCol (c : SColumn)
deriving DecidableEq

/-- The Index schema entity: fields assigned by `set_name` or
`with_name`. -/
structure ReflIndex where
  name : String
  table_name : String
  unique : Bool
  columns : List IndexColumnRef
deriving DecidableEq

/-- `Index.get_column_names`: yield the string itself for a bare string
reference, the column name for a Column reference. -/
def get_column_names (i : ReflIndex) : List String :=
  i.columns.map fun c =>
    match c with
    | IndexColumnRef.byStr s => s
    | IndexColumnRef.byCol c => c.name

/-- `Index.get_ddl_sql`: the sequence of StringIO writes producing
CREATE [UNIQUE] INDEX name ON table (col, ...). -/
def get_ddl_sql (i : ReflIndex) : String :=
  "CREATE " ++ (if i.unique then "UNIQUE " else "")
    ++ "INDEX " ++ i.name ++ " ON " ++ i.table_name
    ++ " (" ++ String.intercalate ", " (get_column_names i) ++ ")"

/-- `Index.set_name` (the class-attribute binding hook): `table_name`
becomes the owning table name; the index name is the attribute name when
it already starts with the table name, otherwise the table name, an
underscore and the attribute name. -/
def index_set_name (i : ReflIndex) (ownerTablename : String) (attrName : String) :
    ReflIndex :=
  { i with
    table_name := ownerTablename,
    name :=
      if pyStartsWith attrName ownerTablename then attrName
      else ownerTablename ++ "_" ++ attrName }

/-! ## Column reflection (backends/mysql and backends/sqlite3) -/

/-- A dynamically typed Python value, as far as the nullable field of a
reflected column needs: the MySQL dialect passes a raw string, the
sqlite3 dialect passes a boolean. -/
inductive PyVal
  | pstr (s : String)
  | pbool (b : Bool)
deriving DecidableEq

/-- Whether a dynamic value is a boolean. -/
def PyVal.isBool : PyVal → Bool
  | PyVal.pbool _ => true
  | PyVal.pstr _ => false

/-- The canonical semantic column types of the schema model. -/
inductive ColType
  | IntegerT
  | TextT
  | StringT (size : Option Nat)
  | SmallIntT
  | BigIntT
  | BooleanT
  | RealT
  | TimestampT
deriving DecidableEq

/-- A reflected column as built by `Column.with_name`.
Modelled from the spec: the column class (asyncqlio/orm/schema/column.py)
is absent from the sources; per the spec it records name, semantic type,
nullable flag, default value or no-default marker, and primary-key flag.
The nullable field is given the dynamic value type to record exactly what
each dialect passes. -/
structure ReflColumn where
  name : String
  table_name : String
  type_ : ColType
  nullable : PyVal
  default : Option String
  primary_key : Bool
deriving DecidableEq

/-- One raw row of the MySQL information_schema.columns catalog, with the
fields `MysqlDialect.transform_rows_to_columns` reads. -/
structure MysqlColumnRow where
  TABLE_NAME : String
  COLUMN_NAME : String
  COLUMN_KEY : String
  IS_NULLABLE : String
  COLUMN_DEFAULT : Option String
  DATA_TYPE : String
deriving DecidableEq

/-- The MySQL type dispatch of `transform_rows_to_columns`; an
unrecognized type name raises DatabaseException. -/
def mysql_parse_type (t : String) : Except String ColType :=
  if pyStartsWith t "int" then Except.ok ColType.IntegerT
  else if t = "text" then Except.ok ColType.TextT
  else if t = "varchar" then Except.ok (ColType.StringT none)
  else if t = "smallint" then Except.ok ColType.SmallIntT
  else if t = "bigint" then Except.ok ColType.BigIntT
  else if t = "tinyint" then Except.ok ColType.BooleanT
  else if t = "float" then Except.ok ColType.RealT
  else if t = "timestamp" then Except.ok ColType.TimestampT
  else Except.error ("Cannot parse type " ++ t)

/-- Python truthiness of an optional string: None and the empty string
are falsy (used by the `row or NO_DEFAULT` idiom). -/
def pyTruthyStr : Option String → Bool
  | none => false
  | some s => !(s = "")

/-- `MysqlDialect.transform_rows_to_columns` for one catalog row:
primary_key from COLUMN_KEY, nullable taken verbatim from IS_NULLABLE (a
raw string, no boolean conversion in the source), default from
`COLUMN_DEFAULT or NO_DEFAULT`, the type from the dispatch. -/
def mysql_transform_row (row : MysqlColumnRow) : Except String ReflColumn :=
  match mysql_parse_type row.DATA_TYPE with
  | Except.error e => Except.error e
  | Except.ok t =>
    Except.ok
      { name := row.COLUMN_NAME,
        table_name := row.TABLE_NAME,
        type_ := t,
        nullable := PyVal.pstr row.IS_NULLABLE,
        default := if pyTruthyStr row.COLUMN_DEFAULT then row.COLUMN_DEFAULT else none,
        primary_key := row.COLUMN_KEY = "PRI" }

/-- One raw row of the sqlite3 `PRAGMA table_info` output, with the
fields `Sqlite3Dialect.transform_rows_to_columns` reads. -/
structure SqliteColumnRow where
  name : String
  pk : Int
  notnull : Int
  dflt_value : Option String
  type_name : String
deriving DecidableEq

/-- The sqlite3 type dispatch of `transform_rows_to_columns`, including
the VARCHAR size parse (substring between the first opening parenthesis
and the final character, converted to an integer); an unrecognized type
name raises DatabaseException. -/
def sqlite3_parse_type (t : String) : Except String ColType :=
  if t = "INTEGER" then Except.ok ColType.IntegerT
  else if t = "TEXT" then Except.ok ColType.TextT
  else if pyStartsWith t "VARCHAR" then
    match t.toList.findIdx? (fun c => c = '(') with
    | none => Except.error "substring not found"
    | some i =>
      match (String.mk ((t.toList.drop (i + 1)).dropLast)).toNat? with
      | none => Except.error "invalid literal for int"
      | some n => Except.ok (ColType.StringT (some n))
  else if t = "SMALLINT" then Except.ok ColType.SmallIntT
  else if t = "BIGINT" then Except.ok ColType.BigIntT
  else if t = "BOOLEAN" then Except.ok ColType.BooleanT
  else if t = "REAL" then Except.ok ColType.RealT
  else if t = "TIMESTAMP" then Except.ok ColType.TimestampT
  else Except.error ("Cannot parse type " ++ t)

/-- `Sqlite3Dialect.transform_rows_to_columns` for one catalog row:
primary_key is `bool(pk)`, nullable is `not notnull` (a genuine boolean),
default comes from `dflt_value or NO_DEFAULT`. -/
def sqlite3_transform_row (tableName : String) (row : SqliteColumnRow) :
    Except String ReflColumn :=
  match sqlite3_parse_type row.type_name with
  | Except.error e => Except.error e
  | Except.ok t =>
    Except.ok
      { name := row.name,
        table_name := tableName,
        type_ := t,
        nullable := PyVal.pbool (row.notnull = 0),
        default := if pyTruthyStr row.dflt_value then row.dflt_value else none,
        primary_key := !(row.pk = 0) }

/-! ## Index reflection (backends/sqlite3) -/

/-- One raw row of the sqlite_master catalog, with the fields
`Sqlite3Dialect.transform_rows_to_indexes` reads; `sql` is the stored DDL
text, absent for auto-created indexes. -/
structure SqliteMasterRow where
  name : String
  tbl_name : String
  sql : Option String
deriving DecidableEq

/-- A Python runtime error, distinguishing the kinds the sqlite3 index
transform can raise. -/
inductive PyExc
  | attributeError (msg : String)
  | nameError (msg : String)
deriving DecidableEq

/-- The anchored regular-expression match of the source,
`re.compile(r"\x28(.*)\x29").match(sql)`: because match is anchored at
position zero, it succeeds only when the text begins with an opening
parenthesis and contains a later closing parenthesis; the greedy group is
everything up to the last closing parenthesis. -/
def find_col_expr_match (s : String) : Option String :=
  match s.toList with
  | '(' :: rest =>
    match rest.reverse.dropWhile (fun c => c ≠ ')') with
    | [] => none
    | _ :: tail => some (String.mk tail.reverse)
  | _ => none

/-- `Sqlite3Dialect.transform_rows_to_indexes` for one catalog row: a row
with no stored DDL is skipped (`ok none`); when the anchored match fails,
`.groups()` is called on None and an AttributeError is raised; when the
match succeeds, the next expression evaluates the bare name Index, which
the module never defines (only the alias md_index is imported), raising a
NameError, so no index is ever yielded. -/
def sqlite3_transform_row_to_index (row : SqliteMasterRow) :
    Except PyExc (Option ReflIndex) :=
  match row.sql with
  | none => Except.ok none
  | some s =>
    match find_col_expr_match s with
    | none =>
      Except.error (PyExc.attributeError "NoneType object has no attribute groups")
    | some _ =>
      Except.error (PyExc.nameError "name Index is not defined")

/-! ## Helper lemmas -/

/-- Looking a name up after `store_column_value` sees the new binding for
that column and is otherwise unchanged. -/
theorem lookupValue_store (r : SRow) (c : SColumn) (v : Int) (n : String) :
    lookupValue (store_column_value r c v).values n =
      if c.name = n then some v else lookupValue r.values n := rfl

/-- `List.find?` on a cons whose head satisfies the predicate. -/
theorem find_cons_pos {p : SColumn → Bool} {a : SColumn} (l : List SColumn)
    (h : p a = true) : (a :: l).find? p = some a := by
  simp [List.find?_cons, h]

/-- `List.find?` on a cons whose head fails the predicate. -/
theorem find_cons_neg {p : SColumn → Bool} {a : SColumn} (l : List SColumn)
    (h : p a = false) : (a :: l).find? p = l.find? p := by
  simp [List.find?_cons, h]

/-- `Option.or` with an absent right operand. -/
theorem option_or_none (x : Option Int) : x.or none = x := by
  cases x <;> rfl

/-- `List.find?` is the head of the filtered list. -/
theorem find_eq_filter_head (p : SColumn → Bool) (l : List SColumn) :
    l.find? p = (l.filter p).head? := by
  induction l with
  | nil => rfl
  | cons a l ih =>
    by_cases h : p a
    · rw [find_cons_pos l h, List.filter_cons_of_pos h]
      rfl
    · rw [find_cons_neg l (Bool.eq_false_iff.mpr h), List.filter_cons_of_neg h, ih]

/-- Characterization of the defaulting loop: the final value of a name is
its value before the loop if that was set, and otherwise the default of
the first column with that name carrying a defined default. -/
theorem foldl_defaults_lookup (cols : List SColumn) (row : SRow) (n : String) :
    lookupValue (cols.foldl defaults_step row).values n =
      Option.or (lookupValue row.values n)
        ((cols.find? fun c => c.name == n && c.default.isSome).bind fun c => c.default) := by
  induction cols generalizing row with
  | nil =>
    rw [List.foldl_nil, List.find?_nil]
    exact (option_or_none _).symm
  | cons c cs ih =>
    rw [List.foldl_cons, ih]
    cases hd : c.default with
    | none =>
      have hstep : defaults_step row c = row := by simp [defaults_step, hd]
      have hpred : (c.name == n && c.default.isSome) = false := by simp [hd]
      rw [hstep, find_cons_neg cs hpred]
    | some d =>
      by_cases hn : c.name = n
      · have hpred : (c.name == n && c.default.isSome) = true := by simp [hn, hd]
        rw [find_cons_pos cs hpred]
        cases hl : lookupValue row.values c.name with
        | some v =>
          have hstep : defaults_step row c = row := by
            simp [defaults_step, hd, get_column_value_no_default, hl]
          rw [hstep, ← hn, hl]
          rfl
        | none =>
          have hstep : defaults_step row c = store_column_value row c d := by
            simp [defaults_step, hd, get_column_value_no_default, hl]
          rw [hstep, lookupValue_store, if_pos hn, ← hn, hl]
          simp [hd]
      · have hpred : (c.name == n && c.default.isSome) = false := by simp [hn]
        rw [find_cons_neg cs hpred]
        cases hl : lookupValue row.values c.name with
        | some v =>
          have hstep : defaults_step row c = row := by
            simp [defaults_step, hd, get_column_value_no_default, hl]
          rw [hstep]
        | none =>
          have hstep : defaults_step row c = store_column_value row c d := by
            simp [defaults_step, hd, get_column_value_no_default, hl]
          rw [hstep, lookupValue_store, if_neg hn]

/-- Under distinct column names, the defaulting search for the name of a
column with a defined default finds exactly that column. -/
theorem find_nodup_default (cols : List SColumn) (d : SColumn)
    (hmem : d ∈ cols) (hdef : d.default.isSome = true)
    (hnodup : (cols.map fun x => x.name).Nodup) :
    (cols.find? fun c => c.name == d.name && c.default.isSome) = some d := by
  induction cols with
  | nil => cases hmem
  | cons e es ih =>
    rw [List.map_cons, List.nodup_cons] at hnodup
    rcases List.mem_cons.mp hmem with he | he
    · subst he
      have hpred : (d.name == d.name && d.default.isSome) = true := by simp [hdef]
      rw [find_cons_pos es hpred]
    · have hne : e.name ≠ d.name := by
        intro hcontra
        exact hnodup.1 (hcontra ▸ List.mem_map_of_mem _ he)
      have hpred : (e.name == d.name && e.default.isSome) = false := by simp [hne]
      rw [find_cons_neg es hpred]
      exact ih he hnodup.2

/-! ## Claims -/

/-- Claim C1: every data-access operation of a Session (commit, rollback,
close, fetch, execute, cursor, insert_now, update_now) raises the
state-violation error whenever the state is NOT_READY or CLOSED, never
silently returning; and start raises whenever the state is not NOT_READY,
so a second start on the same session fails. -/
theorem claim_C1_state_guards (s : SessionM) :
    ((s.state = SessionState.NOT_READY ∨ s.state = SessionState.CLOSED) →
      session_commit s = Except.error "Session is not ready or closed" ∧
      (∀ cp, session_rollback cp s = Except.error "Session is not ready or closed") ∧
      session_close s = Except.error "Session is not ready or closed" ∧
      (∀ sql, session_fetch sql s = Except.error "Session is not ready or closed") ∧
      (∀ sql, session_execute sql s = Except.error "Session is not ready or closed") ∧
      (∀ sql, session_cursor sql s = Except.error "Session is not ready or closed") ∧
      session_insert_now s = Except.error "Session is not ready or closed" ∧
      session_update_now s = Except.error "Session is not ready or closed") ∧
    (s.state ≠ SessionState.NOT_READY →
      session_start s = Except.error "Session must not be ready or closed") ∧
    (∀ s1, session_start s = Except.ok s1 →
      session_start s1 = Except.error "Session must not be ready or closed") := by
  obtain ⟨st, tr⟩ := s
  refine ⟨?_, ?_, ?_⟩
  · rintro (h | h) <;> cases h <;>
      exact ⟨rfl, fun cp => rfl, rfl, fun sql => rfl, fun sql => rfl, fun sql => rfl,
             rfl, rfl⟩
  · intro h
    cases st with
    | NOT_READY => exact absurd rfl h
    | READY => rfl
    | CLOSED => rfl
  · intro s1 h1
    cases st with
    | NOT_READY =>
      have hs1 : s1 = { state := SessionState.READY, trace := tr ++ ["transaction.begin"] } := by
        simpa [session_start] using h1.symm
      rw [hs1]
      rfl
    | READY => simp [session_start] at h1
    | CLOSED => simp [session_start] at h1

/-- Witness for claim C1 at concrete sessions: a CLOSED session rejects
commit, a NOT_READY session rejects fetch, a READY session rejects start,
and a successfully started session rejects a second start. -/
theorem claim_C1_state_guards_witness :
    session_commit ⟨SessionState.CLOSED, []⟩ =
      Except.error "Session is not ready or closed" ∧
    session_fetch "SELECT 1" ⟨SessionState.NOT_READY, []⟩ =
      Except.error "Session is not ready or closed" ∧
    session_start ⟨SessionState.READY, []⟩ =
      Except.error "Session must not be ready or closed" ∧
    session_start ⟨SessionState.READY, ["transaction.begin"]⟩ =
      Except.error "Session must not be ready or closed" :=
  ⟨((claim_C1_state_guards ⟨SessionState.CLOSED, []⟩).1 (Or.inr rfl)).1,
   ((claim_C1_state_guards ⟨SessionState.NOT_READY, []⟩).1 (Or.inl rfl)).2.2.2.1 "SELECT 1",
   (claim_C1_state_guards ⟨SessionState.READY, []⟩).2.1 (by decide),
   (claim_C1_state_guards ⟨SessionState.NOT_READY, []⟩).2.2
     ⟨SessionState.READY, ["transaction.begin"]⟩ rfl⟩

/-- Claim C2: on scoped exit, a body exception causes rollback then close
and still reaches the caller; a normal exit commits then closes; and when
commit itself raises, the session rolls back, closes, and the commit error
reaches the caller (assuming the rollback and close calls themselves
return normally). -/
theorem claim_C2_scoped_exit (o : TxOutcomes) (exc : Option String)
    (hrb : o.rollbackErr = none) (hcl : o.closeErr = none) :
    (∀ e, exc = some e →
      session_aexit o exc = ([SessAct.rollbackA, SessAct.closeA], some e)) ∧
    (exc = none → o.commitErr = none →
      session_aexit o exc = ([SessAct.commitA, SessAct.closeA], none)) ∧
    (∀ c, exc = none → o.commitErr = some c →
      session_aexit o exc =
        ([SessAct.commitA, SessAct.rollbackA, SessAct.closeA], some c)) := by
  obtain ⟨ce, re, cle⟩ := o
  cases hrb
  cases hcl
  refine ⟨?_, ?_, ?_⟩
  · intro e he
    cases he
    rfl
  · intro h1 h2
    cases h1
    cases h2
    rfl
  · intro c h1 h2
    cases h1
    cases h2
    rfl

/-- Witness for claim C2 at concrete outcomes: a body error rolls back,
closes and propagates; a clean exit commits and closes; a failing commit
rolls back, closes and propagates the commit error. -/
theorem claim_C2_scoped_exit_witness :
    session_aexit ⟨none, none, none⟩ (some "body error") =
      ([SessAct.rollbackA, SessAct.closeA], some "body error") ∧
    session_aexit ⟨none, none, none⟩ none =
      ([SessAct.commitA, SessAct.closeA], none) ∧
    session_aexit ⟨some "commit failed", none, none⟩ none =
      ([SessAct.commitA, SessAct.rollbackA, SessAct.closeA], some "commit failed") :=
  ⟨(claim_C2_scoped_exit ⟨none, none, none⟩ (some "body error") rfl rfl).1
      "body error" rfl,
   (claim_C2_scoped_exit ⟨none, none, none⟩ none rfl rfl).2.1 rfl rfl,
   (claim_C2_scoped_exit ⟨some "commit failed", none, none⟩ none rfl rfl).2.2
      "commit failed" rfl rfl⟩

/-- Claim C3: on a non-RETURNING dialect, inserting a not-deleted row into
a table with exactly one auto-increment column issues the dedicated
last-value query after the insert, stores its result into that
auto-increment column, applies the schema default locally to every column
still unset whose default is defined, and finally marks the row
existed true and deleted false. -/
theorem claim_C3_insert_without_returning
    (sql : String) (lastval : Int) (r : SRow) (c : SColumn)
    (hdel : r.deleted = false)
    (hauto : r.table.columns.filter (fun x => x.auto_increment) = [c])
    (hnodup : (r.table.columns.map fun x => x.name).Nodup) :
    run_insert_row_noret sql lastval r =
      Except.ok ({ apply_defaults (store_column_value r c lastval) with
                   deleted := false, existed := true },
                 [sql, "SELECT LAST_INSERT_ID();"]) ∧
    lookupValue (apply_defaults (store_column_value r c lastval)).values c.name =
      some lastval ∧
    (∀ d ∈ r.table.columns, ∀ v, d.default = some v → d.name ≠ c.name →
      lookupValue r.values d.name = none →
      lookupValue (apply_defaults (store_column_value r c lastval)).values d.name =
        some v) ∧
    (∀ d ∈ r.table.columns, d.default.isSome = true →
      (lookupValue (apply_defaults (store_column_value r c lastval)).values d.name).isSome =
        true) := by
  have hcount : (r.table.columns.countP fun x => x.auto_increment) = 1 := by
    rw [List.countP_eq_length_filter, hauto]
    rfl
  have hfind : (r.table.columns.find? fun x => x.auto_increment) = some c := by
    rw [find_eq_filter_head, hauto]
    rfl
  refine ⟨?_, ?_, ?_, ?_⟩
  · rw [run_insert_row_noret, hdel]
    simp only [Bool.false_eq_true, if_false, hcount, if_pos rfl, hfind]
    rfl
  · rw [apply_defaults]
    have htab : (store_column_value r c lastval).table = r.table := rfl
    rw [htab, foldl_defaults_lookup, lookupValue_store, if_pos rfl]
    rfl
  · intro d hd v hv hne hnone
    rw [apply_defaults]
    have htab : (store_column_value r c lastval).table = r.table := rfl
    rw [htab, foldl_defaults_lookup, lookupValue_store,
        if_neg (fun h => hne h.symm), hnone,
        find_nodup_default r.table.columns d hd (by rw [hv]; rfl) hnodup,
        show ((some d).bind fun x => x.default) = d.default from rfl, hv]
    rfl
  · intro d hd hdef
    rw [apply_defaults]
    have htab : (store_column_value r c lastval).table = r.table := rfl
    rw [htab, foldl_defaults_lookup, lookupValue_store]
    by_cases hcn : c.name = d.name
    · rw [if_pos hcn]
      rfl
    · rw [if_neg hcn]
      cases hl : lookupValue r.values d.name with
      | some v => rfl
      | none =>
        rw [find_nodup_default r.table.columns d hd hdef hnodup]
        obtain ⟨v, hv⟩ := Option.isSome_iff_exists.mp hdef
        rw [show ((some d).bind fun x => x.default) = d.default from rfl, hv]
        rfl

/-- Witness for claim C3 on the users table of the spec scenario: one
auto-increment id column and a name column carrying a schema default; the
last-value query result 42 lands in id, the default 7 lands in name, and
the row comes back existed and not deleted. -/
theorem claim_C3_insert_without_returning_witness :
    run_insert_row_noret "INSERT INTO users VALUES" 42
        ⟨⟨[⟨"id", true, none⟩, ⟨"name", false, some 7⟩]⟩, [], [], false, false⟩ =
      Except.ok
        ({ apply_defaults
            (store_column_value
              ⟨⟨[⟨"id", true, none⟩, ⟨"name", false, some 7⟩]⟩, [], [], false, false⟩
              ⟨"id", true, none⟩ 42) with
           deleted := false, existed := true },
         ["INSERT INTO users VALUES", "SELECT LAST_INSERT_ID();"]) ∧
    lookupValue
        (apply_defaults
          (store_column_value
            ⟨⟨[⟨"id", true, none⟩, ⟨"name", false, some 7⟩]⟩, [], [], false, false⟩
            ⟨"id", true, none⟩ 42)).values "id" = some 42 ∧
    lookupValue
        (apply_defaults
          (store_column_value
            ⟨⟨[⟨"id", true, none⟩, ⟨"name", false, some 7⟩]⟩, [], [], false, false⟩
            ⟨"id", true, none⟩ 42)).values "name" = some 7 := by
  obtain ⟨h1, h2, h3, h4⟩ :=
    claim_C3_insert_without_returning "INSERT INTO users VALUES" 42
      ⟨⟨[⟨"id", true, none⟩, ⟨"name", false, some 7⟩]⟩, [], [], false, false⟩
      ⟨"id", true, none⟩ rfl (by decide) (by decide)
  exact ⟨h1, h2,
    h3 ⟨"name", false, some 7⟩ (by decide) 7 rfl (by decide) rfl⟩

/-- Claim C4: when no row in a RowUpdateQuery is marked deleted, the run
executes exactly the non-sentinel statements, leaves every sentinel row
(including its previous-values baseline) untouched, and replaces the
previous-values snapshot of every executed row by its current values. -/
theorem claim_C4_update_sentinel_skip (pairs : List (SRow × RowStmt))
    (h : ∀ p ∈ pairs, p.1.deleted = false) :
    run_update_rows pairs =
      Except.ok (pairs.map updateRowResult, pairs.filterMap updateRowTrace) := by
  induction pairs with
  | nil => rfl
  | cons p rest ih =>
    obtain ⟨r, sql, params⟩ := p
    have hr : r.deleted = false := h _ (List.mem_cons_self _ _)
    have hrest := ih fun q hq => h q (List.mem_cons_of_mem _ hq)
    by_cases hs : (sql.isNone && params.isNone) = true
    · simp only [run_update_rows, hr, Bool.false_eq_true, if_false, hs, if_true, hrest,
        List.map_cons, List.filterMap_cons, updateRowResult, updateRowTrace]
    · simp only [run_update_rows, hr, Bool.false_eq_true, if_false, hs, hrest,
        List.map_cons, List.filterMap_cons, updateRowResult, updateRowTrace]

/-- Witness for claim C4 on a two-row query: the first row carries the
no-op sentinel and survives untouched with no backend call; the second
carries a real UPDATE, is executed, and gets its baseline replaced. -/
theorem claim_C4_update_sentinel_skip_witness :
    run_update_rows
        [(⟨⟨[]⟩, [("a", 1)], [("a", 0)], true, false⟩, (none, none)),
         (⟨⟨[]⟩, [("b", 2)], [("b", 0)], true, false⟩,
          (some "UPDATE t SET b = 2", some [2]))] =
      Except.ok
        ([⟨⟨[]⟩, [("a", 1)], [("a", 0)], true, false⟩,
          ⟨⟨[]⟩, [("b", 2)], [("b", 2)], true, false⟩],
         [(some "UPDATE t SET b = 2", some [2])]) := by
  have h :=
    claim_C4_update_sentinel_skip
      [(⟨⟨[]⟩, [("a", 1)], [("a", 0)], true, false⟩, (none, none)),
       (⟨⟨[]⟩, [("b", 2)], [("b", 0)], true, false⟩,
        (some "UPDATE t SET b = 2", some [2]))]
      (by decide)
  rw [h]
  rfl

/-- Counterexample to claim C5: a row that is not marked deleted but whose
generated delete SQL is the no-op sentinel gets no backend statement at
all (empty trace) and is returned with deleted still false — delete
execution is skipped exactly as in update, contrary to the claim. -/
theorem claim_C5_counterexample :
    run_delete_rows [(⟨⟨[]⟩, [("a", 1)], [], true, false⟩, (none, none))] =
      Except.ok ([⟨⟨[]⟩, [("a", 1)], [], true, false⟩], []) ∧
    (⟨⟨[]⟩, [("a", 1)], [], true, false⟩ : SRow).deleted = false := by
  exact ⟨rfl, rfl⟩

/-- Claim C5 as amended: for rows not already marked deleted,
run_delete_query executes exactly the non-sentinel statements and marks
those rows deleted, while rows whose generated SQL is the no-op sentinel
are skipped exactly as in update (no backend call, row untouched); a row
already marked deleted makes the run fail. -/
theorem claim_C5_delete_behaviour (pairs : List (SRow × RowStmt)) :
    ((∀ p ∈ pairs, p.1.deleted = false) →
      run_delete_rows pairs =
        Except.ok (pairs.map deleteRowResult, pairs.filterMap deleteRowTrace)) ∧
    (∀ r stmt rest, r.deleted = true →
      run_delete_rows ((r, stmt) :: rest) =
        Except.error "Row is already marked as deleted") := by
  constructor
  · intro h
    induction pairs with
    | nil => rfl
    | cons p rest ih =>
      obtain ⟨r, sql, params⟩ := p
      have hr : r.deleted = false := h _ (List.mem_cons_self _ _)
      have hrest := ih fun q hq => h q (List.mem_cons_of_mem _ hq)
      by_cases hs : (sql.isNone && params.isNone) = true
      · simp only [run_delete_rows, hr, Bool.false_eq_true, if_false, hs, if_true, hrest,
          List.map_cons, List.filterMap_cons, deleteRowResult, deleteRowTrace]
      · simp only [run_delete_rows, hr, Bool.false_eq_true, if_false, hs, hrest,
          List.map_cons, List.filterMap_cons, deleteRowResult, deleteRowTrace]
  · intro r stmt rest hr
    obtain ⟨s1, s2⟩ := stmt
    simp only [run_delete_rows, hr, if_true]

/-- Witness for the amended claim C5: a real DELETE statement is executed
and its row comes back marked deleted; a row already marked deleted makes
the run raise. -/
theorem claim_C5_delete_behaviour_witness :
    run_delete_rows
        [(⟨⟨[]⟩, [("a", 1)], [], true, false⟩,
          (some "DELETE FROM t WHERE a = 1", some [1]))] =
      Except.ok ([⟨⟨[]⟩, [("a", 1)], [], true, true⟩],
                 [(some "DELETE FROM t WHERE a = 1", some [1])]) ∧
    run_delete_rows [(⟨⟨[]⟩, [], [], true, true⟩, (none, none))] =
      Except.error "Row is already marked as deleted" := by
  constructor
  · have h :=
      (claim_C5_delete_behaviour
        [(⟨⟨[]⟩, [("a", 1)], [], true, false⟩,
          (some "DELETE FROM t WHERE a = 1", some [1]))]).1 (by decide)
    rw [h]
    rfl
  · exact (claim_C5_delete_behaviour []).2
      ⟨⟨[]⟩, [], [], true, true⟩ (none, none) [] rfl

/-- Counterexample to claim C6: the MySQL dialect reports
has_checkpoints true, yet a READY-session rollback with the checkpoint
"cp1" performs exactly the same single plain connection rollback as a
rollback with no checkpoint — the checkpoint is not honored despite the
flag being true. -/
theorem claim_C6_counterexample :
    mysql_has_checkpoints = true ∧
    session_rollback_aiomysql ⟨SessionState.READY, []⟩ (some "cp1") =
      session_rollback_aiomysql ⟨SessionState.READY, []⟩ none ∧
    session_rollback_aiomysql ⟨SessionState.READY, []⟩ (some "cp1") =
      Except.ok ⟨SessionState.READY, ["connection.rollback()"]⟩ :=
  ⟨rfl, rfl, rfl⟩

/-- Claim C6 as amended: Session.rollback in READY forwards the
checkpoint unconditionally to the transaction rollback without consulting
has_checkpoints; the aiomysql transaction ignores the checkpoint without
error — it issues the same plain connection rollback for every checkpoint
value — even though MysqlDialect.has_checkpoints is true. -/
theorem claim_C6_checkpoint_ignored (s : SessionM) (cp : Option String)
    (h : s.state = SessionState.READY) :
    mysql_has_checkpoints = true ∧
    session_rollback_aiomysql s cp =
      Except.ok { s with trace := s.trace ++ ["connection.rollback()"] } ∧
    session_rollback_aiomysql s cp = session_rollback_aiomysql s none := by
  refine ⟨rfl, ?_, ?_⟩ <;>
    simp [session_rollback_aiomysql, aiomysql_rollback, h]

/-- Witness for the amended claim C6 at a READY session with checkpoint
"sp2": the rollback succeeds and issues the plain connection rollback. -/
theorem claim_C6_checkpoint_ignored_witness :
    mysql_has_checkpoints = true ∧
    session_rollback_aiomysql ⟨SessionState.READY, []⟩ (some "sp2") =
      Except.ok { state := SessionState.READY, trace := [] ++ ["connection.rollback()"] } ∧
    session_rollback_aiomysql ⟨SessionState.READY, []⟩ (some "sp2") =
      session_rollback_aiomysql ⟨SessionState.READY, []⟩ none :=
  claim_C6_checkpoint_ignored ⟨SessionState.READY, []⟩ (some "sp2") rfl

/-- Claim C7: get_ddl_sql is a function of exactly the name, the unique
flag, the table name and the column-name sequence — two indexes agreeing
on those produce byte-identical output — and the output has the shape
CREATE [UNIQUE] INDEX name ON table (comma-separated column names in
declaration order). -/
theorem claim_C7_ddl_reproducible (i j : ReflIndex)
    (hn : i.name = j.name) (hu : i.unique = j.unique)
    (ht : i.table_name = j.table_name)
    (hc : get_column_names i = get_column_names j) :
    get_ddl_sql i = get_ddl_sql j ∧
    get_ddl_sql i =
      "CREATE " ++ (if i.unique then "UNIQUE " else "") ++ "INDEX " ++ i.name
        ++ " ON " ++ i.table_name ++ " ("
        ++ String.intercalate ", " (get_column_names i) ++ ")" := by
  constructor
  · rw [get_ddl_sql, get_ddl_sql, hn, hu, ht, hc]
  · rfl

/-- Witness for claim C7: an index holding a Column entity reference and
an index holding only bare string references, with equal name, unique
flag, table name and column names, produce the same concrete DDL text. -/
theorem claim_C7_ddl_reproducible_witness :
    get_ddl_sql ⟨"users_name_idx", "users", true,
        [IndexColumnRef.byCol ⟨"name", false, none⟩, IndexColumnRef.byStr "email"]⟩ =
      get_ddl_sql ⟨"users_name_idx", "users", true,
        [IndexColumnRef.byStr "name", IndexColumnRef.byStr "email"]⟩ ∧
    get_ddl_sql ⟨"users_name_idx", "users", true,
        [IndexColumnRef.byCol ⟨"name", false, none⟩, IndexColumnRef.byStr "email"]⟩ =
      "CREATE UNIQUE INDEX users_name_idx ON users (name, email)" := by
  have h :=
    claim_C7_ddl_reproducible
      ⟨"users_name_idx", "users", true,
        [IndexColumnRef.byCol ⟨"name", false, none⟩, IndexColumnRef.byStr "email"]⟩
      ⟨"users_name_idx", "users", true,
        [IndexColumnRef.byStr "name", IndexColumnRef.byStr "email"]⟩
      rfl rfl rfl (by decide)
  exact ⟨h.1, h.2.trans (by decide)⟩

/-- Claim C8 is a code bug on the MySQL side: a recognized catalog row
yields a Column whose nullable field is the raw IS_NULLABLE string (here
"NO", which is truthy), not a boolean, while the sqlite3 dialect does
produce a genuine boolean from notnull — evaluating both transforms at
concrete catalog rows. -/
theorem claim_C8_mysql_nullable_not_boolean :
    mysql_transform_row
        { TABLE_NAME := "users", COLUMN_NAME := "name", COLUMN_KEY := "",
          IS_NULLABLE := "NO", COLUMN_DEFAULT := none, DATA_TYPE := "text" } =
      Except.ok
        { name := "name", table_name := "users", type_ := ColType.TextT,
          nullable := PyVal.pstr "NO", default := none, primary_key := false } ∧
    (PyVal.pstr "NO").isBool = false ∧
    sqlite3_transform_row "users"
        { name := "name", pk := 0, notnull := 1, dflt_value := none,
          type_name := "TEXT" } =
      Except.ok
        { name := "name", table_name := "users", type_ := ColType.TextT,
          nullable := PyVal.pbool false, default := none, primary_key := false } ∧
    (PyVal.pbool false).isBool = true := by
  refine ⟨?_, rfl, ?_, rfl⟩ <;> rfl

/-- Claim C9 is a code bug: a sqlite_master row whose DDL text is a real
CREATE INDEX statement raises an AttributeError (the anchored regex match
returns None and .groups() is called on it) instead of being skipped; a
row with absent DDL is skipped; and even a row whose text the regex does
match raises a NameError on the undefined bare name Index. -/
theorem claim_C9_index_reflection_raises :
    sqlite3_transform_row_to_index
        { name := "foo_idx", tbl_name := "bar",
          sql := some "CREATE INDEX foo_idx ON bar (a, b)" } =
      Except.error (PyExc.attributeError "NoneType object has no attribute groups") ∧
    sqlite3_transform_row_to_index
        { name := "auto_idx", tbl_name := "bar", sql := none } =
      Except.ok none ∧
    sqlite3_transform_row_to_index
        { name := "odd_idx", tbl_name := "bar", sql := some "(a, b)" } =
      Except.error (PyExc.nameError "name Index is not defined") := by
  refine ⟨?_, rfl, ?_⟩ <;> rfl

/-- Claim C10: binding an Index as a class attribute sets its table_name
to the owning table name, keeps the attribute name as the index name when
it already starts with the table name, and otherwise prefixes the table
name and an underscore — so the stored name can differ from the attribute
name. -/
theorem claim_C10_set_name (i : ReflIndex) (owner attrName : String) :
    (index_set_name i owner attrName).table_name = owner ∧
    (pyStartsWith attrName owner = true →
      (index_set_name i owner attrName).name = attrName) ∧
    (pyStartsWith attrName owner = false →
      (index_set_name i owner attrName).name = owner ++ "_" ++ attrName) := by
  refine ⟨rfl, ?_, ?_⟩ <;> intro h <;> simp [index_set_name, h]

/-- Witness for claim C10: the attribute by_email on table users is
stored as users_by_email (different from the attribute name, and that
stored name is what the DDL uses), while the attribute users_email_idx is
kept unchanged. -/
theorem claim_C10_set_name_witness :
    (index_set_name ⟨"", "", false, [IndexColumnRef.byStr "email"]⟩
        "users" "by_email").name = "users" ++ "_" ++ "by_email" ∧
    (index_set_name ⟨"", "", false, [IndexColumnRef.byStr "email"]⟩
        "users" "by_email").name ≠ "by_email" ∧
    (index_set_name ⟨"", "", false, [IndexColumnRef.byStr "email"]⟩
        "users" "users_email_idx").name = "users_email_idx" ∧
    (index_set_name ⟨"", "", false, [IndexColumnRef.byStr "email"]⟩
        "users" "by_email").table_name = "users" ∧
    get_ddl_sql (index_set_name ⟨"", "", false, [IndexColumnRef.byStr "email"]⟩
        "users" "by_email") = "CREATE INDEX users_by_email ON users (email)" :=
  ⟨(claim_C10_set_name ⟨"", "", false, [IndexColumnRef.byStr "email"]⟩
      "users" "by_email").2.2 (by decide),
   by decide,
   (claim_C10_set_name ⟨"", "", false, [IndexColumnRef.byStr "email"]⟩
      "users" "users_email_idx").2.1 (by decide),
   (claim_C10_set_name ⟨"", "", false, [IndexColumnRef.byStr "email"]⟩
      "users" "by_email").1,
   by decide⟩
